import Mathlib

/-!
Verification development for the Plasmics SensorArray serial driver
(`klippy/extras/pla_sear.py`, class `PLA_SensorArray`).

The Python code is shallowly embedded: Python strings become `List Char`,
the mutable object state becomes the structure `DriverState`, the serial
handle and reactor become explicit parameters (a script of read events,
a list of write outcomes, an environment of possible raised errors), and
each method becomes a pure Lean function on these.  Side effects towards
the host (shutdown requests, console messages, serial writes) are
returned as lists, in the order the Python code performs them.
-/

set_option maxRecDepth 8000

namespace PlaSear

/-- Whitespace characters removed by Python `str.strip()` (the ASCII ones,
which are the only ones the driver can meet on its wire format). -/
def isPySpace (c : Char) : Bool :=
  c == ' ' || c == '\t' || c == '\n' || c == '\r' || c == '\x0b' || c == '\x0c'

/-- Python `line.strip()` (pla_sear.py line 210): remove leading and
trailing whitespace. -/
def pyStrip (s : List Char) : List Char :=
  ((s.dropWhile isPySpace).reverse.dropWhile isPySpace).reverse

/-- Python `text_line.rstrip("\x00")` (pla_sear.py line 276): remove
trailing NUL characters only. -/
def rstripNull (s : List Char) : List Char :=
  (s.reverse.dropWhile (fun c => c == '\x00')).reverse

/-- Python `text_buffer.find("\r\n")` (pla_sear.py line 207): index of the
first occurrence of the two-character terminator, `none` when absent
(Python returns -1). -/
def find_crlf : List Char → Option Nat
  | [] => none
  | [_] => none
  | a :: b :: rest =>
    if a = '\r' ∧ b = '\n' then some 0
    else (find_crlf (b :: rest)).map (fun i => i + 1)

/-- Inner `while True` of `_run_Read` (pla_sear.py lines 206-213): repeatedly
look for the terminator; on a hit take `text_buffer[0 : i + 1]` as the line
(note: `i + 1`, so the line keeps the `"\r"` and the `"\n"` stays in the
remainder), push its `strip()` onto the queue, and continue with
`text_buffer[i + 1 :]`.  The fuel argument bounds the iteration count; each
iteration removes at least one character, so `text.length` fuel is enough. -/
def frameLoop : Nat → List Char → List Char × List (List Char)
  | 0, text => (text, [])
  | fuel + 1, text =>
    match find_crlf text with
    | some i =>
      let line := text.take (i + 1)
      let r := frameLoop fuel (text.drop (i + 1))
      (r.1, pyStrip line :: r.2)
    | none => (text, [])

/-- One framing pass of `_run_Read` (pla_sear.py lines 204-214): prepend the
retained buffer to the decoded chunk, extract all terminated lines, return
the new buffer together with the stripped lines in extraction order. -/
def frameChunk (read_buffer chunk : List Char) : List Char × List (List Char) :=
  frameLoop (read_buffer ++ chunk).length (read_buffer ++ chunk)

/-- Feeding a sequence of raw chunks through the framer starting from a given
retained buffer, collecting all produced lines in order. -/
def frameAllFrom : List (List Char) → List Char → List Char × List (List Char)
  | [], buf => (buf, [])
  | chunk :: rest, buf =>
    let r1 := frameChunk buf chunk
    let r2 := frameAllFrom rest r1.1
    (r2.1, r1.2 ++ r2.2)

/-- Feeding a sequence of raw chunks through the framer from the initial
empty buffer. -/
def frameAll (chunks : List (List Char)) : List Char × List (List Char) :=
  frameAllFrom chunks []

/-- Return value of a reactor timer callback: either the next invocation
time or the `reactor.NEVER` sentinel ("do not reschedule"). -/
inductive ReactorTime where
  | next (t : ℚ)
  | never
  deriving DecidableEq, Repr

/-- Polling interval `SERIAL_TIMER = 0.1` (pla_sear.py line 14). -/
def SERIAL_TIMER : ℚ := 1 / 10

/-- The mutable attributes of `PLA_SensorArray` that the claims are about.
`serial` is `true` when `self.serial is not None`; `read_timer` and
`write_timer` are `true` while the corresponding reactor timer is
registered. -/
structure DriverState where
  serial : Bool
  read_timer : Bool
  write_timer : Bool
  read_buffer : List Char
  read_queue : List (List Char)
  write_queue : List (List Char)
  failed_connection_attempts : Nat
  last_debug_timestamp : ℚ
  last_debug_message : List Char
  deriving DecidableEq, Repr

/-- State established by `__init__` (pla_sear.py lines 34-50): no serial
handle, no read/write timers, empty buffers and queues, zero failed
attempts, `last_debug_message = ""`. -/
def initState (now : ℚ) : DriverState :=
  { serial := false
    read_timer := false
    write_timer := false
    read_buffer := []
    read_queue := []
    write_queue := []
    failed_connection_attempts := 0
    last_debug_timestamp := now
    last_debug_message := [] }

/-- Which of the fallible external operations used by `disconnect` raise
when called.  Every combination is possible; `disconnect` must swallow
them all. -/
structure SerialEnv where
  close_raises : Bool
  unregister_read_raises : Bool
  unregister_write_raises : Bool
  deriving DecidableEq, Repr

/-- An environment in which no external operation raises. -/
def envOk : SerialEnv := ⟨false, false, false⟩

/-- Python `self.serial.close()`: raises when `self.serial is None`
(attribute error on `None`) or when the handle itself fails to close. -/
def serialClose (connected : Bool) (raises : Bool) : Except (List Char) Unit :=
  if !connected then .error "serial is None".data
  else if raises then .error "close failed".data
  else .ok ()

/-- Python `self.reactor.unregister_timer(t)`: raises when the timer is not
currently registered (`t` is `None`) or when the reactor refuses. -/
def unregisterTimer (registered : Bool) (raises : Bool) : Except (List Char) Unit :=
  if !registered then .error "timer is None".data
  else if raises then .error "unregister failed".data
  else .ok ()

/-- Method `disconnect` (pla_sear.py lines 84-113).  It appends the
disconnect message (default `"d"`) to the write queue, then closes the
handle inside `try/except` (the error is only logged), sets `serial` to
`None`, and unregisters each timer inside `try/except` (errors only
logged), setting both to `None`.  Nothing else is touched: the read
buffer and both queues keep their contents.  The function is total, so no
exception ever reaches the caller. -/
def disconnect (env : SerialEnv) (msg : List Char) (st : DriverState) : DriverState :=
  let st1 := { st with write_queue := st.write_queue ++ [msg] }
  let _ := serialClose st1.serial env.close_raises
  let st2 := { st1 with serial := false }
  let _ := unregisterTimer st2.read_timer env.unregister_read_raises
  let st3 := { st2 with read_timer := false }
  let _ := unregisterTimer st3.write_timer env.unregister_write_raises
  { st3 with write_timer := false }

/-- Method `get_status` (pla_sear.py lines 118-122): the returned dict
`{last_debug_timestamp, last_debug_message}`, modelled as a pair. -/
def get_status (st : DriverState) : ℚ × List Char :=
  (st.last_debug_timestamp, st.last_debug_message)

/-- Method `_init_PLA_SEAR` (pla_sear.py lines 155-178).  `connectOk`
tells whether `serial.Serial(port, BAUD, timeout=1)` succeeds.  On
success: handle stored, failure counter reset, both queues cleared (the
read buffer is not), read and write timers registered.  On failure: the
counter is incremented and the method returns at once. -/
def init_PLA_SEAR (connectOk : Bool) (st : DriverState) : DriverState :=
  if connectOk then
    let st1 := { st with serial := true, failed_connection_attempts := 0 }
    let st2 := { st1 with write_queue := [], read_queue := [] }
    { st2 with read_timer := true, write_timer := true }
  else
    { st with failed_connection_attempts := st.failed_connection_attempts + 1 }

/-- Method `_handle_connect` (pla_sear.py lines 72-74): connect only when
there is no serial handle yet. -/
def handle_connect (connectOk : Bool) (st : DriverState) : DriverState :=
  if st.serial = false then init_PLA_SEAR connectOk st else st

/-- Method `_sample_PLA_SEAR` (pla_sear.py lines 125-153), the Poll Driver
tick.  Returns the new state, the shutdown requests issued via
`self.printer.invoke_shutdown` during the tick, and the callback's return
value.  Below the threshold it connects (when disconnected) or enqueues
the `"read"` token (when connected) and reschedules; at or above the
threshold it requests shutdown and returns the never sentinel. -/
def sample_PLA_SEAR (connectOk : Bool) (eventtime : ℚ) (st : DriverState) :
    DriverState × List (List Char) × ReactorTime :=
  if st.failed_connection_attempts < 5 then
    let st1 :=
      if st.serial = false then handle_connect connectOk st
      else { st with write_queue := st.write_queue ++ ["read".data] }
    (st1, [], .next (eventtime + SERIAL_TIMER))
  else
    (st, ["Connection to SensorArray lost and could not be reestablished!".data],
      .never)

/-- Modelled from the spec: the host reactor (not part of src/) invokes a
registered periodic callback with the current time, reschedules it at the
returned time, and after the callback returns the never sentinel does not
invoke it again.  `sampleRun n` performs up to `n` such invocations of the
Poll Driver and collects every shutdown request issued. -/
def sampleRun (connectOk : Bool) : Nat → ℚ → DriverState → List (List Char)
  | 0, _, _ => []
  | n + 1, t, st =>
    let r := sample_PLA_SEAR connectOk t st
    match r.2.2 with
    | .next t2 => r.2.1 ++ sampleRun connectOk n t2 r.1
    | .never => r.2.1

/-- One event offered by the serial port to a read call of `_run_Read`:
either `serial.read()` returns a chunk (when `in_waiting > 0`) or the
read raises. -/
inductive ReadEv where
  | ok (chunk : List Char)
  | err
  deriving DecidableEq, Repr

/-- Framing block of `_run_Read` (pla_sear.py lines 203-214): when the read
call returned a nonempty chunk, run the Line Framer over the retained
buffer plus the chunk and append the produced lines to the read queue. -/
def absorbChunk (chunk : List Char) (st : DriverState) : DriverState :=
  if chunk.length ≠ 0 then
    let fr := frameChunk st.read_buffer chunk
    { st with read_buffer := fr.1, read_queue := st.read_queue ++ fr.2 }
  else st

/-- Outer `while True` of `_run_Read` (pla_sear.py lines 191-224).  The
script lists what the serial port does on successive read calls; an empty
script means `in_waiting == 0`.  Returns the new state, the shutdown
requests issued, and the part of the script never consumed.  An exception
triggers `disconnect()` and breaks; a nonempty chunk is framed; a chunk of
more than 1000 bytes issues the `"Buffer to large."` shutdown request and
loops again; any other case breaks (so a read of at most 1000 bytes ends
the loop even when more bytes are waiting). -/
def runReadLoop (env : SerialEnv) :
    List ReadEv → DriverState → DriverState × List (List Char) × List ReadEv
  | [], st => (st, [], [])
  | ReadEv.err :: rest, st => (disconnect env "d".data st, [], rest)
  | ReadEv.ok chunk :: rest, st =>
    let st1 := absorbChunk chunk st
    if chunk.length > 1000 then
      let r := runReadLoop env rest st1
      (r.1, "Buffer to large.".data :: r.2.1, r.2.2)
    else
      (st1, [], rest)

/-- Body of the loop of `_process_read_queue` (pla_sear.py lines 274-281)
applied to the popped lines in order: each console message is
`"Output from SensorArray: "` followed by the line with trailing NULs
removed. -/
def processLines : List (List Char) → List (List Char)
  | [] => []
  | text_line :: rest =>
    ("Output from SensorArray: ".data ++ rstripNull text_line) :: processLines rest

/-- Method `_process_read_queue` (pla_sear.py lines 272-281): pops every
line of the read queue in FIFO order and forwards each via
`gcode.respond_info`; returns the new state and the forwarded messages. -/
def process_read_queue (st : DriverState) : DriverState × List (List Char) :=
  ({ st with read_queue := [] }, processLines st.read_queue)

/-- Everything `_run_Read` (pla_sear.py lines 182-230) produces in one
invocation. -/
structure ReadResult where
  st : DriverState
  shutdowns : List (List Char)
  forwarded : List (List Char)
  leftover : List ReadEv
  ret : ReactorTime
  deriving DecidableEq, Repr

/-- Method `_run_Read` (pla_sear.py lines 182-230): run the read loop, set
`last_debug_timestamp` to the current monotonic time, run
`_process_read_queue`, and return `eventtime + SERIAL_TIMER`
unconditionally. -/
def run_Read (env : SerialEnv) (script : List ReadEv) (now eventtime : ℚ)
    (st : DriverState) : ReadResult :=
  let lp := runReadLoop env script st
  let st2 := { lp.1 with last_debug_timestamp := now }
  let pq := process_read_queue st2
  { st := pq.1
    shutdowns := lp.2.1
    forwarded := pq.2
    leftover := lp.2.2
    ret := .next (eventtime + SERIAL_TIMER) }

/-- Loop of `_run_Write` (pla_sear.py lines 240-255).  The first argument
is the queue still to drain (kept equal to `st.write_queue`); `outcomes`
says whether each successive `serial.write` call succeeds, an exhausted
list meaning success.  Each entry is popped; falsy (empty) entries are not
written; a failed write calls `disconnect()` and breaks, leaving the rest
of the queue (plus the appended `"d"`) behind.  Returns the final state
and the entries actually written, in order. -/
def run_Write_loop (env : SerialEnv) :
    List (List Char) → List Bool → DriverState → DriverState × List (List Char)
  | [], _, st => (st, [])
  | text_line :: rest, outcomes, st =>
    let st1 := { st with write_queue := rest }
    if text_line.isEmpty then run_Write_loop env rest outcomes st1
    else
      match outcomes with
      | [] =>
        let r := run_Write_loop env rest [] st1
        (r.1, text_line :: r.2)
      | true :: oRest =>
        let r := run_Write_loop env rest oRest st1
        (r.1, text_line :: r.2)
      | false :: _ => (disconnect env "d".data st1, [])

/-- Method `_run_Write` (pla_sear.py lines 232-258): drain the queue, then
return `eventtime + SERIAL_TIMER` unconditionally. -/
def run_Write (env : SerialEnv) (outcomes : List Bool) (eventtime : ℚ)
    (st : DriverState) : DriverState × List (List Char) × ReactorTime :=
  let r := run_Write_loop env st.write_queue outcomes st
  (r.1, r.2, .next (eventtime + SERIAL_TIMER))

/-- Boolean test that `pat` occurs at the start of `s`. -/
def leadsWith : List Char → List Char → Bool
  | [], _ => true
  | _ :: _, [] => false
  | p :: ps, c :: cs => p == c && leadsWith ps cs

/-- Boolean substring test: `pat` occurs somewhere inside `s`. -/
def containsSub (pat : List Char) : List Char → Bool
  | [] => pat.isEmpty
  | c :: cs => leadsWith pat (c :: cs) || containsSub pat cs

/-! ## Helper lemmas about the Line Framer -/

theorem find_crlf_length : ∀ (l : List Char) (i : Nat),
    find_crlf l = some i → i + 2 ≤ l.length := by
  intro l
  induction l with
  | nil => intro i h; simp [find_crlf] at h
  | cons a t ih =>
    intro i h
    cases t with
    | nil => rw [show find_crlf [a] = (none : Option Nat) from rfl] at h; cases h
    | cons b rest =>
      rw [find_crlf] at h
      by_cases hc : a = '\r' ∧ b = '\n'
      · rw [if_pos hc] at h
        cases h
        simp
      · rw [if_neg hc] at h
        cases hf : find_crlf (b :: rest) with
        | none => rw [hf] at h; simp at h
        | some j =>
          rw [hf] at h
          have hj : j + 1 = i := by simpa using h
          have := ih j hf
          simp only [List.length_cons] at this ⊢
          omega

theorem find_crlf_take : ∀ (l : List Char) (i : Nat),
    find_crlf l = some i → ∃ r0, l.take (i + 1) = r0 ++ ['\r'] := by
  intro l
  induction l with
  | nil => intro i h; simp [find_crlf] at h
  | cons a t ih =>
    intro i h
    cases t with
    | nil => rw [show find_crlf [a] = (none : Option Nat) from rfl] at h; cases h
    | cons b rest =>
      rw [find_crlf] at h
      by_cases hc : a = '\r' ∧ b = '\n'
      · rw [if_pos hc] at h
        cases h
        exact ⟨[], by simp [hc.1]⟩
      · rw [if_neg hc] at h
        cases hf : find_crlf (b :: rest) with
        | none => rw [hf] at h; simp at h
        | some j =>
          rw [hf] at h
          have hj : j + 1 = i := by simpa using h
          subst hj
          obtain ⟨r0, hr0⟩ := ih j hf
          exact ⟨a :: r0, by simp [List.take_succ_cons, hr0]⟩

theorem frameLoop_decomp : ∀ (fuel : Nat) (text : List Char), text.length ≤ fuel →
    ∃ raws : List (List Char),
      (frameLoop fuel text).2 = raws.map pyStrip ∧
      raws.flatten ++ (frameLoop fuel text).1 = text ∧
      ∀ r ∈ raws, ∃ r0, r = r0 ++ ['\r'] := by
  intro fuel
  induction fuel with
  | zero =>
    intro text ht
    have hnil : text = [] := List.eq_nil_of_length_eq_zero (Nat.le_zero.mp ht)
    subst hnil
    exact ⟨[], by simp [frameLoop], by simp [frameLoop], by simp⟩
  | succ n ih =>
    intro text ht
    cases hf : find_crlf text with
    | none =>
      exact ⟨[], by simp [frameLoop, hf], by simp [frameLoop, hf], by simp⟩
    | some i =>
      have hlen := find_crlf_length text i hf
      have hrest : (text.drop (i + 1)).length ≤ n := by
        simp only [List.length_drop]
        omega
      obtain ⟨raws, hmap, hjoin, hr⟩ := ih (text.drop (i + 1)) hrest
      refine ⟨text.take (i + 1) :: raws, ?_, ?_, ?_⟩
      · simp [frameLoop, hf, hmap]
      · simp only [frameLoop, hf, List.flatten_cons]
        rw [List.append_assoc, hjoin, List.take_append_drop]
      · intro r hrm
        rcases List.mem_cons.mp hrm with hhd | htl
        · subst hhd
          exact find_crlf_take text i hf
        · exact hr r htl

theorem frameChunk_decomp (buf chunk : List Char) :
    ∃ raws : List (List Char),
      (frameChunk buf chunk).2 = raws.map pyStrip ∧
      raws.flatten ++ (frameChunk buf chunk).1 = buf ++ chunk ∧
      ∀ r ∈ raws, ∃ r0, r = r0 ++ ['\r'] :=
  frameLoop_decomp (buf ++ chunk).length (buf ++ chunk) (le_refl _)

theorem frameAllFrom_decomp : ∀ (chunks : List (List Char)) (buf : List Char),
    ∃ raws : List (List Char),
      (frameAllFrom chunks buf).2 = raws.map pyStrip ∧
      raws.flatten ++ (frameAllFrom chunks buf).1 = buf ++ chunks.flatten ∧
      ∀ r ∈ raws, ∃ r0, r = r0 ++ ['\r'] := by
  intro chunks
  induction chunks with
  | nil =>
    intro buf
    exact ⟨[], by simp [frameAllFrom], by simp [frameAllFrom], by simp⟩
  | cons chunk rest ih =>
    intro buf
    obtain ⟨raws1, h1m, h1j, h1r⟩ := frameChunk_decomp buf chunk
    obtain ⟨raws2, h2m, h2j, h2r⟩ := ih (frameChunk buf chunk).1
    refine ⟨raws1 ++ raws2, ?_, ?_, ?_⟩
    · simp [frameAllFrom, h1m, h2m]
    · simp only [frameAllFrom, List.flatten_append, List.flatten_cons]
      rw [List.append_assoc, h2j, ← List.append_assoc, h1j, List.append_assoc]
    · intro r hrm
      rcases List.mem_append.mp hrm with h1 | h2
      · exact h1r r h1
      · exact h2r r h2

/-! ## Helper lemmas about the driver operations -/

theorem head?_dropWhile_false (p : Char → Bool) :
    ∀ (l : List Char) (a : Char), (l.dropWhile p).head? = some a → p a = false := by
  intro l
  induction l with
  | nil => intro a h; simp [List.dropWhile] at h
  | cons c cs ih =>
    intro a h
    by_cases hp : p c = true
    · rw [List.dropWhile_cons, if_pos hp] at h
      exact ih a h
    · rw [List.dropWhile_cons, if_neg hp] at h
      simp only [List.head?_cons, Option.some.injEq] at h
      subst h
      simp at hp
      exact hp

theorem rstripNull_no_trailing (l : List Char) :
    (rstripNull l).getLast? = some '\x00' → False := by
  intro h
  rw [rstripNull, List.getLast?_reverse] at h
  have := head?_dropWhile_false (fun c => c == '\x00') l.reverse '\x00' h
  simp at this

theorem disconnect_fields (env : SerialEnv) (msg : List Char) (st : DriverState) :
    (disconnect env msg st).serial = false ∧
    (disconnect env msg st).read_timer = false ∧
    (disconnect env msg st).write_timer = false ∧
    (disconnect env msg st).read_buffer = st.read_buffer ∧
    (disconnect env msg st).read_queue = st.read_queue ∧
    (disconnect env msg st).write_queue = st.write_queue ++ [msg] ∧
    (disconnect env msg st).failed_connection_attempts = st.failed_connection_attempts ∧
    (disconnect env msg st).last_debug_message = st.last_debug_message :=
  ⟨rfl, rfl, rfl, rfl, rfl, rfl, rfl, rfl⟩

theorem absorbChunk_fields (chunk : List Char) (st : DriverState) :
    (absorbChunk chunk st).serial = st.serial ∧
    (absorbChunk chunk st).read_timer = st.read_timer ∧
    (absorbChunk chunk st).write_timer = st.write_timer ∧
    (absorbChunk chunk st).write_queue = st.write_queue ∧
    (absorbChunk chunk st).failed_connection_attempts = st.failed_connection_attempts ∧
    (absorbChunk chunk st).last_debug_message = st.last_debug_message := by
  unfold absorbChunk
  split
  · exact ⟨rfl, rfl, rfl, rfl, rfl, rfl⟩
  · exact ⟨rfl, rfl, rfl, rfl, rfl, rfl⟩

theorem runReadLoop_message : ∀ (script : List ReadEv) (env : SerialEnv) (st : DriverState),
    (runReadLoop env script st).1.last_debug_message = st.last_debug_message := by
  intro script
  induction script with
  | nil => intro env st; rfl
  | cons ev rest ih =>
    intro env st
    cases ev with
    | err => exact (disconnect_fields env "d".data st).2.2.2.2.2.2.2
    | ok chunk =>
      simp only [runReadLoop]
      split
      · rw [ih env (absorbChunk chunk st)]
        exact (absorbChunk_fields chunk st).2.2.2.2.2
      · exact (absorbChunk_fields chunk st).2.2.2.2.2

theorem runReadLoop_timers : ∀ (script : List ReadEv) (env : SerialEnv) (st : DriverState),
    ((runReadLoop env script st).1.read_timer = st.read_timer ∧
      (runReadLoop env script st).1.write_timer = st.write_timer) ∨
    ((runReadLoop env script st).1.read_timer = false ∧
      (runReadLoop env script st).1.write_timer = false) := by
  intro script
  induction script with
  | nil => intro env st; exact Or.inl ⟨rfl, rfl⟩
  | cons ev rest ih =>
    intro env st
    cases ev with
    | err => exact Or.inr ⟨rfl, rfl⟩
    | ok chunk =>
      simp only [runReadLoop]
      split
      · rcases ih env (absorbChunk chunk st) with ⟨h1, h2⟩ | ⟨h1, h2⟩
        · refine Or.inl ⟨?_, ?_⟩
          · rw [h1]; exact (absorbChunk_fields chunk st).2.1
          · rw [h2]; exact (absorbChunk_fields chunk st).2.2.1
        · exact Or.inr ⟨h1, h2⟩
      · exact Or.inl ⟨(absorbChunk_fields chunk st).2.1,
          (absorbChunk_fields chunk st).2.2.1⟩

theorem run_Write_loop_all_ok : ∀ (q : List (List Char)) (env : SerialEnv) (st : DriverState),
    run_Write_loop env q [] { st with write_queue := q } =
      ({ st with write_queue := [] }, q.filter (fun l => !l.isEmpty)) := by
  intro q
  induction q with
  | nil => intro env st; rfl
  | cons e rest ih =>
    intro env st
    simp only [run_Write_loop]
    by_cases he : e.isEmpty = true
    · rw [if_pos he]
      rw [List.filter_cons]
      simp only [he, Bool.not_true, Bool.false_eq_true, if_false]
      exact ih env st
    · rw [if_neg he]
      rw [List.filter_cons]
      have hne : (!e.isEmpty) = true := by simp [Bool.eq_false_iff.mpr he]
      simp only [hne, if_true]
      have h := ih env st
      rw [h]

theorem run_Write_loop_fifo : ∀ (q : List (List Char)) (env : SerialEnv)
    (outcomes : List Bool) (st : DriverState),
    ∃ tail, q.filter (fun l => !l.isEmpty) = (run_Write_loop env q outcomes st).2 ++ tail := by
  intro q
  induction q with
  | nil => intro env outcomes st; exact ⟨[], rfl⟩
  | cons e rest ih =>
    intro env outcomes st
    simp only [run_Write_loop]
    by_cases he : e.isEmpty = true
    · rw [if_pos he]
      obtain ⟨tail, ht⟩ := ih env outcomes { st with write_queue := rest }
      refine ⟨tail, ?_⟩
      rw [List.filter_cons]
      simp only [he, Bool.not_true, Bool.false_eq_true, if_false]
      exact ht
    · rw [if_neg he]
      have hne : (!e.isEmpty) = true := by simp [Bool.eq_false_iff.mpr he]
      cases outcomes with
      | nil =>
        obtain ⟨tail, ht⟩ := ih env [] { st with write_queue := rest }
        refine ⟨tail, ?_⟩
        rw [List.filter_cons]
        simp only [hne, if_true, ht]
        rfl
      | cons b oRest =>
        cases b with
        | true =>
          obtain ⟨tail, ht⟩ := ih env oRest { st with write_queue := rest }
          refine ⟨tail, ?_⟩
          rw [List.filter_cons]
          simp only [hne, if_true, ht]
          rfl
        | false =>
          refine ⟨e :: rest.filter (fun l => !l.isEmpty), ?_⟩
          rw [List.filter_cons]
          simp only [hne, if_true]
          rfl

theorem run_Write_loop_message : ∀ (q : List (List Char)) (env : SerialEnv)
    (outcomes : List Bool) (st : DriverState),
    (run_Write_loop env q outcomes st).1.last_debug_message = st.last_debug_message := by
  intro q
  induction q with
  | nil => intro env outcomes st; rfl
  | cons e rest ih =>
    intro env outcomes st
    simp only [run_Write_loop]
    by_cases he : e.isEmpty = true
    · rw [if_pos he]
      exact ih env outcomes { st with write_queue := rest }
    · rw [if_neg he]
      cases outcomes with
      | nil => exact ih env [] { st with write_queue := rest }
      | cons b oRest =>
        cases b with
        | true => exact ih env oRest { st with write_queue := rest }
        | false =>
          exact (disconnect_fields env "d".data
            { st with write_queue := rest }).2.2.2.2.2.2.2

theorem run_Write_loop_timers : ∀ (q : List (List Char)) (env : SerialEnv)
    (outcomes : List Bool) (st : DriverState),
    ((run_Write_loop env q outcomes st).1.read_timer = st.read_timer ∧
      (run_Write_loop env q outcomes st).1.write_timer = st.write_timer) ∨
    ((run_Write_loop env q outcomes st).1.read_timer = false ∧
      (run_Write_loop env q outcomes st).1.write_timer = false) := by
  intro q
  induction q with
  | nil => intro env outcomes st; exact Or.inl ⟨rfl, rfl⟩
  | cons e rest ih =>
    intro env outcomes st
    simp only [run_Write_loop]
    by_cases he : e.isEmpty = true
    · rw [if_pos he]
      exact ih env outcomes { st with write_queue := rest }
    · rw [if_neg he]
      cases outcomes with
      | nil => exact ih env [] { st with write_queue := rest }
      | cons b oRest =>
        cases b with
        | true => exact ih env oRest { st with write_queue := rest }
        | false => exact Or.inr ⟨rfl, rfl⟩

theorem runReadLoop_small (env : SerialEnv) (chunk : List Char) (rest : List ReadEv)
    (st : DriverState) (h : chunk.length ≤ 1000) :
    runReadLoop env (ReadEv.ok chunk :: rest) st = (absorbChunk chunk st, [], rest) := by
  simp only [runReadLoop]
  rw [if_neg (by omega)]

theorem runReadLoop_big (env : SerialEnv) (chunk : List Char) (rest : List ReadEv)
    (st : DriverState) (h : 1000 < chunk.length) :
    runReadLoop env (ReadEv.ok chunk :: rest) st =
      ((runReadLoop env rest (absorbChunk chunk st)).1,
        "Buffer to large.".data :: (runReadLoop env rest (absorbChunk chunk st)).2.1,
        (runReadLoop env rest (absorbChunk chunk st)).2.2) := by
  simp only [runReadLoop]
  rw [if_pos (by omega)]

theorem sample_terminal (connectOk : Bool) (t : ℚ) (st : DriverState)
    (h : 5 ≤ st.failed_connection_attempts) :
    sample_PLA_SEAR connectOk t st =
      (st, ["Connection to SensorArray lost and could not be reestablished!".data],
        ReactorTime.never) := by
  unfold sample_PLA_SEAR
  rw [if_neg (by omega)]

theorem processLines_map : ∀ q : List (List Char),
    processLines q = q.map (fun l => "Output from SensorArray: ".data ++ rstripNull l) := by
  intro q
  induction q with
  | nil => rfl
  | cons l rest ih => simp [processLines, ih]

/-! ## The claims -/

/-- Claim C1, counterexample.  On the claim's own scenario (chunks
"12.5\r\n7." then "3\r\n") the framer does produce the two lines "12.5"
and "7.3", but the retained buffer is "\n" rather than empty, so the
lines re-concatenated with the terminator, followed by the remainder,
do not reconstruct the original byte stream: the claimed round-trip
equality fails. -/
theorem c1_counterexample :
    (frameAll ["12.5\r\n7.".data, "3\r\n".data]).2 = ["12.5".data, "7.3".data] ∧
    (frameAll ["12.5\r\n7.".data, "3\r\n".data]).1 = "\n".data ∧
    ¬ (((frameAll ["12.5\r\n7.".data, "3\r\n".data]).2.map
          (fun l => l ++ "\r\n".data)).flatten ++
        (frameAll ["12.5\r\n7.".data, "3\r\n".data]).1 =
        (["12.5\r\n7.".data, "3\r\n".data] : List (List Char)).flatten) := by
  refine ⟨by decide, by decide, by decide⟩

/-- Claim C1, amended.  For every sequence of raw chunks, the stream splits
into the raw extracted segments followed by the final buffer (no byte is
dropped or duplicated before stripping), each produced line is the
whitespace-stripped raw segment, and each raw segment ends with the
carriage return of its terminator (the terminator's line feed stays
behind and is carried into the following segment or final buffer).  In
particular the scenario chunks "12.5\r\n7." then "3\r\n" yield exactly
the lines "12.5" then "7.3", with final buffer "\n". -/
theorem c1_framer_decomposition :
    (∀ chunks : List (List Char),
      ∃ raws : List (List Char),
        (frameAll chunks).2 = raws.map pyStrip ∧
        raws.flatten ++ (frameAll chunks).1 = chunks.flatten ∧
        ∀ r ∈ raws, ∃ r0, r = r0 ++ ['\r']) ∧
    frameAll ["12.5\r\n7.".data, "3\r\n".data] =
      ("\n".data, ["12.5".data, "7.3".data]) := by
  constructor
  · intro chunks
    simpa using frameAllFrom_decomp chunks []
  · decide

/-- Claim C2, counterexample.  At a state whose failure counter has
reached 5 the tick issues the shutdown request "Connection to SensorArray
lost and could not be reestablished!", and that message does not contain
the substring "could not be reestablished." (period included) that the
claim quotes: the code ends the sentence with an exclamation mark. -/
theorem c2_counterexample :
    (sample_PLA_SEAR true 0
        { initState 0 with failed_connection_attempts := 5 }).2.1 =
      ["Connection to SensorArray lost and could not be reestablished!".data] ∧
    containsSub "could not be reestablished.".data
      "Connection to SensorArray lost and could not be reestablished!".data = false := by
  refine ⟨by decide, by decide⟩

/-- Claim C2, amended.  Once the consecutive failed-connection counter has
reached 5, a Poll Driver tick attempts no connection and leaves the state
unchanged, issues the fatal shutdown request — whose message contains
"could not be reestablished" followed by an exclamation mark, not the
period the claim quotes — and returns the never sentinel; hence under the
reactor contract (a callback returning never is not invoked again) the
request is issued exactly once over any number of scheduler steps. -/
theorem c2_failure_threshold_terminal (st : DriverState)
    (h : 5 ≤ st.failed_connection_attempts) (connectOk : Bool) (t : ℚ)
    (n : Nat) (hn : 1 ≤ n) :
    sample_PLA_SEAR connectOk t st =
      (st, ["Connection to SensorArray lost and could not be reestablished!".data],
        ReactorTime.never) ∧
    containsSub "could not be reestablished!".data
      "Connection to SensorArray lost and could not be reestablished!".data = true ∧
    sampleRun connectOk n t st =
      ["Connection to SensorArray lost and could not be reestablished!".data] := by
  refine ⟨sample_terminal connectOk t st h, by decide, ?_⟩
  cases n with
  | zero => omega
  | succ m =>
    simp only [sampleRun, sample_terminal connectOk t st h]

/-- Witness for C2: the amended theorem applied at the concrete state with
failure counter 5 and a single scheduler step. -/
theorem c2_witness :
    5 ≤ ({ initState 0 with failed_connection_attempts := 5 } :
        DriverState).failed_connection_attempts ∧
    (1 : Nat) ≤ 1 ∧
    (sample_PLA_SEAR true 0 { initState 0 with failed_connection_attempts := 5 } =
      ({ initState 0 with failed_connection_attempts := 5 },
        ["Connection to SensorArray lost and could not be reestablished!".data],
        ReactorTime.never) ∧
      containsSub "could not be reestablished!".data
        "Connection to SensorArray lost and could not be reestablished!".data = true ∧
      sampleRun true 1 0 { initState 0 with failed_connection_attempts := 5 } =
        ["Connection to SensorArray lost and could not be reestablished!".data]) :=
  ⟨by decide, by decide,
    c2_failure_threshold_terminal
      { initState 0 with failed_connection_attempts := 5 } (by decide) true 0 1 (by decide)⟩

/-- Claim C3.  The claim is right about the intent and the code is wrong:
`last_debug_message` is assigned only in `__init__` (to the empty string)
and `_run_Read`, `_run_Write` and `_sample_PLA_SEAR` all leave it
unchanged, so after the Read Pump has forwarded the line "12.5" the
status query still returns "" for `last_debug_message`, not "12.5". -/
theorem c3_last_debug_message_never_updated :
    (∀ (env : SerialEnv) (script : List ReadEv) (now t : ℚ) (st : DriverState),
      (run_Read env script now t st).st.last_debug_message = st.last_debug_message) ∧
    (∀ (env : SerialEnv) (outcomes : List Bool) (t : ℚ) (st : DriverState),
      (run_Write env outcomes t st).1.last_debug_message = st.last_debug_message) ∧
    (∀ (connectOk : Bool) (t : ℚ) (st : DriverState),
      (sample_PLA_SEAR connectOk t st).1.last_debug_message = st.last_debug_message) ∧
    (run_Read envOk [ReadEv.ok "12.5\r\n".data] 1 0 (initState 0)).forwarded =
      ["Output from SensorArray: 12.5".data] ∧
    (get_status (run_Read envOk [ReadEv.ok "12.5\r\n".data] 1 0 (initState 0)).st).2 = [] ∧
    "12.5".data ≠ ([] : List Char) := by
  refine ⟨?_, ?_, ?_, by decide, by decide, by decide⟩
  · intro env script now t st
    exact runReadLoop_message script env st
  · intro env outcomes t st
    exact run_Write_loop_message st.write_queue env outcomes st
  · intro connectOk t st
    unfold sample_PLA_SEAR handle_connect init_PLA_SEAR
    split
    · split
      · split <;> rfl
      · rfl
    · rfl

/-- Claim C4, counterexample.  After `disconnect()` the outbound queue is
not empty — it holds the appended disconnect sentinel "d" — and neither
the read buffer nor the inbound queue has been cleared. -/
theorem c4_counterexample :
    (disconnect envOk "d".data
        { initState 0 with read_buffer := "x".data, read_queue := ["q".data] }).write_queue =
      ["d".data] ∧
    ["d".data] ≠ ([] : List (List Char)) ∧
    (disconnect envOk "d".data
        { initState 0 with read_buffer := "x".data, read_queue := ["q".data] }).read_buffer =
      "x".data ∧
    (disconnect envOk "d".data
        { initState 0 with read_buffer := "x".data, read_queue := ["q".data] }).read_queue =
      ["q".data] := by
  refine ⟨by decide, by decide, by decide, by decide⟩

/-- Claim C4, amended.  After every call to `disconnect()` the serial
handle is `None` and both timer registrations are removed, but the
buffers are not cleared: the outbound queue is the old queue with the
disconnect sentinel appended, and the read buffer and inbound queue are
untouched.  The two queues (not the read buffer) are re-created fresh by
`_init_PLA_SEAR` on the next successful reconnection. -/
theorem c4_disconnect_state :
    (∀ (env : SerialEnv) (msg : List Char) (st : DriverState),
      (disconnect env msg st).serial = false ∧
      (disconnect env msg st).read_timer = false ∧
      (disconnect env msg st).write_timer = false ∧
      (disconnect env msg st).write_queue = st.write_queue ++ [msg] ∧
      (disconnect env msg st).read_queue = st.read_queue ∧
      (disconnect env msg st).read_buffer = st.read_buffer) ∧
    (∀ st : DriverState,
      (init_PLA_SEAR true st).serial = true ∧
      (init_PLA_SEAR true st).read_timer = true ∧
      (init_PLA_SEAR true st).write_timer = true ∧
      (init_PLA_SEAR true st).write_queue = [] ∧
      (init_PLA_SEAR true st).read_queue = [] ∧
      (init_PLA_SEAR true st).read_buffer = st.read_buffer ∧
      (init_PLA_SEAR true st).failed_connection_attempts = 0) := by
  constructor
  · intro env msg st
    obtain ⟨h1, h2, h3, h4, h5, h6, _, _⟩ := disconnect_fields env msg st
    exact ⟨h1, h2, h3, h6, h5, h4⟩
  · intro st
    exact ⟨rfl, rfl, rfl, rfl, rfl, rfl, rfl⟩

/-- Claim C5, counterexample.  With the chunks "a" then "b" available, the
read loop terminates after the single read of "a" (1 byte, at most 1000):
the second read event is still pending when the invocation ends, refuting
"for every invocation in which bytes remain available after a successful
read, the loop performs another read rather than terminating". -/
theorem c5_counterexample :
    (runReadLoop envOk [ReadEv.ok "a".data, ReadEv.ok "b".data] (initState 0)).2.2 =
      [ReadEv.ok "b".data] ∧
    [ReadEv.ok "b".data] ≠ ([] : List ReadEv) := by
  refine ⟨by decide, by decide⟩

/-- Claim C5, amended.  Each `_run_Read` invocation performs at most one
read call whenever that read returns at most 1000 bytes: after framing
the chunk the loop hits the `else: break` and stops for this invocation,
even when more bytes are available; only a read of more than 1000 bytes
(the overflow path) makes the loop iterate again. -/
theorem c5_single_read_per_tick (env : SerialEnv) (chunk : List Char)
    (rest : List ReadEv) (st : DriverState) (h : chunk.length ≤ 1000) :
    runReadLoop env (ReadEv.ok chunk :: rest) st = (absorbChunk chunk st, [], rest) :=
  runReadLoop_small env chunk rest st h

/-- Witness for C5: the amended theorem applied at the 1-byte chunk "a"
with the chunk "b" still available. -/
theorem c5_witness :
    ("a".data : List Char).length ≤ 1000 ∧
    runReadLoop envOk [ReadEv.ok "a".data, ReadEv.ok "b".data] (initState 0) =
      (absorbChunk "a".data (initState 0), [], [ReadEv.ok "b".data]) :=
  ⟨by decide,
    c5_single_read_per_tick envOk "a".data [ReadEv.ok "b".data] (initState 0) (by decide)⟩

/-- Claim C6, counterexample.  A single read of 1001 bytes does issue a
shutdown request, but its reason is the code's "Buffer to large.", which
does not contain the substring "Buffer too large" quoted by the claim. -/
theorem c6_counterexample :
    (runReadLoop envOk [ReadEv.ok (List.replicate 1001 'a')] (initState 0)).2.1 =
      ["Buffer to large.".data] ∧
    containsSub "Buffer too large".data "Buffer to large.".data = false := by
  constructor
  · rw [runReadLoop_big envOk (List.replicate 1001 'a') [] (initState 0) (by simp)]
    rfl
  · decide

/-- Claim C6, amended.  On every invocation of the Read Pump, a read call
returning more than 1000 bytes issues a fatal shutdown request with the
reason "Buffer to large." (the code's spelling), regardless of terminators
in the bytes and independent of the failure counter; a read of 1000 bytes
or fewer never triggers this shutdown. -/
theorem c6_overflow_guard (env : SerialEnv) (chunk : List Char)
    (rest : List ReadEv) (st : DriverState) :
    (1000 < chunk.length →
      ∃ tl, (runReadLoop env (ReadEv.ok chunk :: rest) st).2.1 =
        "Buffer to large.".data :: tl) ∧
    (chunk.length ≤ 1000 →
      (runReadLoop env (ReadEv.ok chunk :: rest) st).2.1 = []) := by
  constructor
  · intro h
    rw [runReadLoop_big env chunk rest st h]
    exact ⟨_, rfl⟩
  · intro h
    rw [runReadLoop_small env chunk rest st h]

/-- Witness for C6: the amended theorem applied at a 1001-byte chunk
(without any terminator, from a state with a nonzero failure counter)
and at the 2-byte chunk "ab". -/
theorem c6_witness :
    (1000 < (List.replicate 1001 'a').length ∧
      ∃ tl, (runReadLoop envOk [ReadEv.ok (List.replicate 1001 'a')]
          { initState 0 with failed_connection_attempts := 3 }).2.1 =
        "Buffer to large.".data :: tl) ∧
    (("ab".data : List Char).length ≤ 1000 ∧
      (runReadLoop envOk [ReadEv.ok "ab".data, ReadEv.err] (initState 0)).2.1 = []) :=
  ⟨⟨by simp, (c6_overflow_guard envOk (List.replicate 1001 'a') []
      { initState 0 with failed_connection_attempts := 3 }).1 (by simp)⟩,
   ⟨by decide, (c6_overflow_guard envOk "ab".data [ReadEv.err] (initState 0)).2 (by decide)⟩⟩

/-- Claim C7, confirmed.  `disconnect` is a total function — every failing
close or unregister call is wrapped in `try/except` and only logged, for
any combination of raising operations (`env1`, `env2`), including the
never-connected state where closing `None` raises — and after each of two
consecutive calls the serial handle is `None` (Disconnected) and both
timer registrations are cleared. -/
theorem c7_disconnect_idempotent (env1 env2 : SerialEnv) (msg1 msg2 : List Char)
    (st : DriverState) :
    (disconnect env1 msg1 st).serial = false ∧
    (disconnect env1 msg1 st).read_timer = false ∧
    (disconnect env1 msg1 st).write_timer = false ∧
    (disconnect env2 msg2 (disconnect env1 msg1 st)).serial = false ∧
    (disconnect env2 msg2 (disconnect env1 msg1 st)).read_timer = false ∧
    (disconnect env2 msg2 (disconnect env1 msg1 st)).write_timer = false :=
  ⟨rfl, rfl, rfl, rfl, rfl, rfl⟩

/-- Claim C8, confirmed.  When no write fails the Write Pump drains the
whole queue in one invocation, writing exactly the non-empty entries in
FIFO order and leaving the queue empty; for every outcome sequence the
written entries form a prefix of the non-empty entries in queue order (so
an I/O failure aborts the drain without reordering, later entries never
transmitted in this invocation); the callback always returns the next
tick time; and on the concrete queue A, B, C with the write of B failing,
only A is transmitted, `disconnect()` has run (serial is `None`, the
sentinel "d" is appended behind the remaining C), and B and C were never
written. -/
theorem c8_write_pump_fifo :
    (∀ (env : SerialEnv) (t : ℚ) (st : DriverState),
      (run_Write env [] t st).2.1 = st.write_queue.filter (fun l => !l.isEmpty) ∧
      (run_Write env [] t st).1.write_queue = []) ∧
    (∀ (env : SerialEnv) (outcomes : List Bool) (t : ℚ) (st : DriverState),
      ∃ tail, st.write_queue.filter (fun l => !l.isEmpty) =
        (run_Write env outcomes t st).2.1 ++ tail) ∧
    (∀ (env : SerialEnv) (outcomes : List Bool) (t : ℚ) (st : DriverState),
      (run_Write env outcomes t st).2.2 = ReactorTime.next (t + SERIAL_TIMER)) ∧
    ((run_Write envOk [true, false] 0
        { initState 0 with
          serial := true
          write_queue := ["A".data, "B".data, "C".data] }).2.1 = ["A".data] ∧
     (run_Write envOk [true, false] 0
        { initState 0 with
          serial := true
          write_queue := ["A".data, "B".data, "C".data] }).1.write_queue =
        ["C".data, "d".data] ∧
     (run_Write envOk [true, false] 0
        { initState 0 with
          serial := true
          write_queue := ["A".data, "B".data, "C".data] }).1.serial = false) := by
  refine ⟨?_, ?_, ?_, by decide, by decide, by decide⟩
  · intro env t st
    have h := run_Write_loop_all_ok st.write_queue env st
    exact ⟨congrArg Prod.snd h, congrArg (fun x => x.1.write_queue) h⟩
  · intro env outcomes t st
    exact run_Write_loop_fifo st.write_queue env outcomes st
  · intro env outcomes t st
    rfl

/-- Claim C9, counterexample.  The Line Consumer forwards the line
"a\x00b" as "Output from SensorArray: a\x00b": the embedded NUL character
is still present in the forwarded text, because the code strips only
trailing NULs (`rstrip`). -/
theorem c9_counterexample :
    (process_read_queue { initState 0 with read_queue := ["a\x00b".data] }).2 =
      ["Output from SensorArray: a\x00b".data] ∧
    '\x00' ∈ "Output from SensorArray: a\x00b".data := by
  refine ⟨by decide, by decide⟩

/-- Claim C9, amended.  Every invocation of the Line Consumer pops every
line of the Inbound Queue in FIFO order, leaving the queue empty, and
forwards each line prefixed with "Output from SensorArray: " after
stripping only its trailing NUL characters: the forwarded line part never
ends in a NUL, but NUL characters embedded elsewhere in the line are
kept. -/
theorem c9_line_consumer_rstrip :
    (∀ st : DriverState,
      (process_read_queue st).1.read_queue = [] ∧
      (process_read_queue st).2 =
        st.read_queue.map (fun l => "Output from SensorArray: ".data ++ rstripNull l)) ∧
    (∀ l : List Char, ((rstripNull l).getLast? == some '\x00') = false) := by
  constructor
  · intro st
    exact ⟨rfl, processLines_map st.read_queue⟩
  · intro l
    rw [beq_eq_false_iff_ne]
    intro h
    exact rstripNull_no_trailing l h

/-- Claim C10, confirmed.  `_run_Read` and `_run_Write` return
`eventtime + SERIAL_TIMER` on every invocation, whatever the state and
whatever the serial port does — including invocations in which an I/O
exception caused `disconnect()` to run — and they never touch the two
timer registrations themselves: after either callback the timer flags are
either unchanged or both cleared by the `disconnect()` call made inside
the callback. -/
theorem c10_pumps_always_reschedule :
    (∀ (env : SerialEnv) (script : List ReadEv) (now t : ℚ) (st : DriverState),
      (run_Read env script now t st).ret = ReactorTime.next (t + SERIAL_TIMER)) ∧
    (∀ (env : SerialEnv) (outcomes : List Bool) (t : ℚ) (st : DriverState),
      (run_Write env outcomes t st).2.2 = ReactorTime.next (t + SERIAL_TIMER)) ∧
    (∀ (env : SerialEnv) (script : List ReadEv) (now t : ℚ) (st : DriverState),
      ((run_Read env script now t st).st.read_timer = st.read_timer ∧
        (run_Read env script now t st).st.write_timer = st.write_timer) ∨
      ((run_Read env script now t st).st.read_timer = false ∧
        (run_Read env script now t st).st.write_timer = false)) ∧
    (∀ (env : SerialEnv) (outcomes : List Bool) (t : ℚ) (st : DriverState),
      ((run_Write env outcomes t st).1.read_timer = st.read_timer ∧
        (run_Write env outcomes t st).1.write_timer = st.write_timer) ∨
      ((run_Write env outcomes t st).1.read_timer = false ∧
        (run_Write env outcomes t st).1.write_timer = false)) := by
  refine ⟨fun env script now t st => rfl, fun env outcomes t st => rfl, ?_, ?_⟩
  · intro env script now t st
    exact runReadLoop_timers script env st
  · intro env outcomes t st
    exact run_Write_loop_timers st.write_queue env outcomes st

end PlaSear
